import Mathlib

/-!
Verification of the bedrock-chat repository's core components against its
specification: model catalog, generation-config validation, request-body
construction, non-streaming response text extraction, streaming chunk
decoding, and the streaming retry/backoff loop.

The Python sources are shallowly embedded: JSON values are an inductive
type, Python dict/list operations become total Lean functions returning
`Except PyErr _` where the Python operation can raise, floats appearing in
the code (temperatures, delays) become rationals (every literal involved
is exactly representable), and Python ints become `Int`/`Nat`.
-/

/-- A JSON value, as produced by `json.loads`.  Numbers are modelled as
rationals (all numeric literals in the embedded code are exact). -/
inductive Json where
  | null : Json
  | bool (b : Bool) : Json
  | num (q : ℚ) : Json
  | str (s : String) : Json
  | arr (xs : List Json) : Json
  | obj (fields : List (String × Json)) : Json

/-- Python runtime errors that the embedded fragments can raise. -/
inductive PyErr where
  | indexError : PyErr
  | typeError : PyErr
  | attributeError : PyErr
  | keyError : PyErr
deriving DecidableEq

/-- First value bound to key `k` in a JSON-object field list (Python dicts
from `json.loads` have unique keys). -/
def find_val (fs : List (String × Json)) (k : String) : Option Json :=
  (fs.find? (fun p => p.1 == k)).map (fun p => p.2)

/-- Python `d.get(k, default)` on a dict. -/
def py_get (fs : List (String × Json)) (k : String) (default : Json) : Json :=
  (find_val fs k).getD default

/-- Python `x.get(k, default)` on an arbitrary value: `AttributeError`
unless `x` is a dict. -/
def py_get_attr (j : Json) (k : String) (default : Json) : Except PyErr Json :=
  match j with
  | .obj fs => .ok (py_get fs k default)
  | _ => .error .attributeError

/-- Python `x[0]`: first element of a list, first character of a string,
`IndexError` when empty, `KeyError` on a JSON dict (whose keys are all
strings), `TypeError` otherwise. -/
def py_index0 (j : Json) : Except PyErr Json :=
  match j with
  | .arr [] => .error .indexError
  | .arr (x :: _) => .ok x
  | .str s => if s.isEmpty then .error .indexError else .ok (.str (s.take 1))
  | .obj _ => .error .keyError
  | _ => .error .typeError

/-- Python `accumulated_text += text` followed by `yield text`: requires
`text` to be a string, else `TypeError`. -/
def py_add_str (j : Json) : Except PyErr String :=
  match j with
  | .str s => .ok s
  | _ => .error .typeError

/-- Python `v == "lit"` for a decoded JSON value `v`. -/
def json_eq_str (j : Json) (s : String) : Bool :=
  match j with
  | .str t => t == s
  | _ => false

/-- Python `s.startswith(pre)`. -/
def py_startswith (s pre : String) : Bool :=
  pre.data.isPrefixOf s.data

/-- The `outputs` branch of the stream decoder:
`for output in chunk['outputs']: text = output.get('text', ''); ... yield text`.
Iterating a non-list mostly errors (dict keys and string characters lack
`.get`), except that iterating an empty dict or empty string runs zero
iterations. -/
def process_outputs : Json → Except PyErr (List String)
  | .arr xs => go xs
  | .obj [] => .ok []
  | .obj (_ :: _) => .error .attributeError
  | .str s => if s.isEmpty then .ok [] else .error .attributeError
  | _ => .error .typeError
where
  go : List Json → Except PyErr (List String)
    | [] => .ok []
    | x :: rest => do
      let t ← py_get_attr x "text" (.str "")
      let s ← py_add_str t
      let tail ← go rest
      .ok (s :: tail)

/-- One iteration of `process_stream_chunks` (utils/streaming.py): the
dispatch over one decoded chunk object, yielding its text fragments or
raising.  Branches in source order, first match wins. -/
def process_chunk (fs : List (String × Json)) : Except PyErr (List String) :=
  match find_val fs "completion" with
  | some v => do
    let s ← py_add_str v
    .ok [s]
  | none =>
  match find_val fs "type" with
  | some tv =>
    if json_eq_str tv "content_block_delta" then do
      let t ← py_get_attr (py_get fs "delta" (.obj [])) "text" (.str "")
      let s ← py_add_str t
      .ok [s]
    else if json_eq_str tv "message_delta" then do
      let c ← py_get_attr (py_get fs "delta" (.obj [])) "content" (.arr [.obj []])
      let x ← py_index0 c
      let t ← py_get_attr x "text" (.str "")
      let s ← py_add_str t
      .ok [s]
    else .ok []
  | none =>
  match find_val fs "outputText" with
  | some v => do
    let s ← py_add_str v
    .ok [s]
  | none =>
  match find_val fs "generation" with
  | some v => do
    let s ← py_add_str v
    .ok [s]
  | none =>
  match find_val fs "text" with
  | some v => do
    let s ← py_add_str v
    .ok [s]
  | none =>
  match find_val fs "outputs" with
  | some v => process_outputs v
  | none => .ok []

/-- `process_stream_chunks` (utils/streaming.py) over a finite sequence of
already-decoded chunk objects: the fragments yielded, in order, or the
first error raised. -/
def process_stream_chunks : List (List (String × Json)) → Except PyErr (List String)
  | [] => .ok []
  | c :: rest => do
    let xs ← process_chunk c
    let ys ← process_stream_chunks rest
    .ok (xs ++ ys)

/-- One entry of the model catalog (models/model_registry.py `ModelInfo`). -/
structure ModelInfo where
  model_id : String
  api_version : Option String
  context_window : Int
  supports_streaming : Bool

/-- `MODEL_REGISTRY` (models/model_registry.py): short names to model
information, in source order. -/
def MODEL_REGISTRY : List (String × ModelInfo) :=
  [ ("claude-sonnet",
      ⟨"anthropic.claude-3-sonnet-20240229-v1:0", some "bedrock-2023-05-31", 200000, true⟩),
    ("claude-haiku",
      ⟨"anthropic.claude-3-haiku-20240307-v1:0", some "bedrock-2023-05-31", 200000, true⟩),
    ("titan-express", ⟨"amazon.titan-text-express-v1", none, 8000, true⟩),
    ("titan-lite", ⟨"amazon.titan-text-lite-v1", none, 4000, true⟩),
    ("llama-70b", ⟨"meta.llama3-70b-instruct-v1:0", none, 32000, true⟩),
    ("llama-8b", ⟨"meta.llama3-8b-instruct-v1:0", none, 16000, true⟩),
    ("mistral-7b", ⟨"mistral.mistral-7b-instruct-v0:2", none, 8000, true⟩),
    ("mistral-large", ⟨"mistral.mistral-large-2402-v1:0", none, 32000, true⟩),
    ("mistral-8x7b", ⟨"mistral.mixtral-8x7b-instruct-v0:1", none, 32000, true⟩) ]

/-- `get_model_info` (models/model_registry.py): dictionary lookup. -/
def get_model_info (model_name : String) : Option ModelInfo :=
  (MODEL_REGISTRY.find? (fun p => p.1 == model_name)).map (fun p => p.2)

/-- The error kinds the config layer raises (each a distinct `ValueError`
message in the source). -/
inductive ConfigError where
  | temperatureRange : ConfigError
  | topPRange : ConfigError
  | topKNegative : ConfigError
  | maxTokensPositive : ConfigError
  | unknownModel (name : String) : ConfigError
  | exceedsContextWindow (requested window : Int) : ConfigError
  | unsupportedModel (model_id : String) : ConfigError
deriving DecidableEq

/-- `ModelConfig` (models/model_config.py): the dataclass fields. -/
structure ModelConfig where
  model_id : String
  temperature : ℚ
  max_tokens : Int
  top_p : ℚ
  top_k : Int
  stop_sequences : Option (List String)
  api_version : Option String
  model_info : Option ModelInfo

/-- `ModelConfig.__post_init__` validation: dataclass construction either
yields a fully validated instance or raises, checks in source order. -/
def mk_model_config (model_id : String) (temperature : ℚ) (max_tokens : Int)
    (top_p : ℚ) (top_k : Int) (stop_sequences : Option (List String))
    (api_version : Option String) (model_info : Option ModelInfo) :
    Except ConfigError ModelConfig :=
  if ¬ (0 ≤ temperature ∧ temperature ≤ 1) then .error .temperatureRange
  else if ¬ (0 ≤ top_p ∧ top_p ≤ 1) then .error .topPRange
  else if top_k < 0 then .error .topKNegative
  else if max_tokens < 1 then .error .maxTokensPositive
  else .ok ⟨model_id, temperature, max_tokens, top_p, top_k,
            stop_sequences, api_version, model_info⟩

/-- `ModelConfig.from_model_name` as invoked by the chat commands (the
`max_tokens` and `temperature` keyword arguments; remaining fields keep
their dataclass defaults `top_p=1.0`, `top_k=250`, `stop_sequences=None`):
registry lookup, then the context-window check, then dataclass
construction. -/
def from_model_name (model_name : String) (max_tokens : Int)
    (temperature : ℚ) : Except ConfigError ModelConfig :=
  match get_model_info model_name with
  | none => .error (.unknownModel model_name)
  | some info =>
    if max_tokens > info.context_window then
      .error (.exceedsContextWindow max_tokens info.context_window)
    else
      mk_model_config info.model_id temperature max_tokens 1 250 none
        info.api_version (some info)

/-- `ModelConfig.to_request_body`: provider-family dispatch over the
model-id prefixes, in source order, producing the ordered key/value pairs
of the Python dict. -/
def to_request_body (c : ModelConfig) : Except ConfigError (List (String × Json)) :=
  if py_startswith c.model_id "anthropic.claude-3" then
    .ok [ ("anthropic_version", .str (c.api_version.getD "bedrock-2023-05-31")),
          ("max_tokens", .num c.max_tokens),
          ("temperature", .num c.temperature),
          ("top_k", .num c.top_k),
          ("top_p", .num c.top_p),
          ("stop_sequences", .arr ((c.stop_sequences.getD []).map .str)) ]
  else if py_startswith c.model_id "anthropic." then
    .ok [ ("max_tokens", .num c.max_tokens),
          ("temperature", .num c.temperature),
          ("top_k", .num c.top_k),
          ("top_p", .num c.top_p),
          ("stop_sequences", .arr ((c.stop_sequences.getD []).map .str)) ]
  else if py_startswith c.model_id "amazon." then
    .ok [ ("inputText", .str ""),
          ("textGenerationConfig", .obj
            [ ("maxTokenCount", .num c.max_tokens),
              ("temperature", .num c.temperature),
              ("topP", .num c.top_p),
              ("stopSequences", .arr ((c.stop_sequences.getD []).map .str)) ]) ]
  else if py_startswith c.model_id "meta." then
    .ok [ ("max_gen_len", .num c.max_tokens),
          ("temperature", .num c.temperature),
          ("top_p", .num c.top_p) ]
  else if py_startswith c.model_id "mistral." then
    .ok [ ("max_tokens", .num c.max_tokens),
          ("temperature", .num c.temperature),
          ("top_p", .num c.top_p),
          ("stop", .arr ((c.stop_sequences.getD []).map .str)) ]
  else .error (.unsupportedModel c.model_id)

/-- A chat message (`ChatHistory` stores dicts with `role` and `content`). -/
structure Message where
  role : String
  content : String
deriving DecidableEq

/-- The value returned by `format_prompt`: a bare string or a message
list. -/
inductive FormattedPrompt where
  | str (s : String) : FormattedPrompt
  | msgs (l : List Message) : FormattedPrompt
deriving DecidableEq

/-- `ChatHistory.get_context` (cli/chat.py): the Python slice
`self.messages[-max_messages:]`.  A negative-offset slice starts
`max_messages` from the end (clamped to the start); `-0` degenerates to
the whole list. -/
def get_context (messages : List Message) (max_messages : Nat) : List Message :=
  if max_messages = 0 then messages
  else messages.drop (messages.length - max_messages)

/-- The `elif system_prompt: ... else: ...` tail of `format_prompt`.
Python truthiness: `None` and the empty string are both falsy, so only a
present, non-empty system prompt selects the two-message branch. -/
def format_prompt_no_history (prompt : String) (system_prompt : Option String) :
    FormattedPrompt :=
  match system_prompt with
  | some sp =>
    if sp.isEmpty then .str prompt
    else .msgs [⟨"system", sp⟩, ⟨"user", prompt⟩]
  | none => .str prompt

/-- `format_prompt` (cli/chat.py).  `if chat_history and
chat_history.messages:` is true only for a present, non-empty history;
the context slice is taken with the default `max_messages = 10`, the
system message is inserted at the front (`if system_prompt:` — falsy for
`None` and for the empty string) and the user turn appended. -/
def format_prompt (prompt : String) (system_prompt : Option String)
    (chat_history : Option (List Message)) : FormattedPrompt :=
  match chat_history with
  | some h =>
    if h.isEmpty then format_prompt_no_history prompt system_prompt
    else
      let messages := get_context h 10
      let messages := match system_prompt with
        | some sp =>
          if sp.isEmpty then messages else ⟨"system", sp⟩ :: messages
        | none => messages
      .msgs (messages ++ [⟨"user", prompt⟩])
  | none => format_prompt_no_history prompt system_prompt

/-- Flattening of a formatted prompt for the string-prompt families:
`"\n".join(msg["content"] for msg in formatted_prompt)` when it is a
list, the string itself otherwise. -/
def flat_prompt (fp : FormattedPrompt) : String :=
  match fp with
  | .str s => s
  | .msgs ms => String.intercalate "\n" (ms.map (fun m => m.content))

/-- JSON encoding of one message dict. -/
def msg_json (m : Message) : Json :=
  .obj [("role", .str m.role), ("content", .str m.content)]

/-- The `messages` value of the Family A body: the formatted prompt if it
is already a list, else a single user message wrapping the string. -/
def messages_json (fp : FormattedPrompt) : Json :=
  match fp with
  | .msgs ms => .arr (ms.map msg_json)
  | .str s => .arr [msg_json ⟨"user", s⟩]

/-- Python `body[k] = v` on a dict: replaces the value in place when the
key exists (our dicts have unique keys), appends otherwise. -/
def dict_set (fs : List (String × Json)) (k : String) (v : Json) :
    List (String × Json) :=
  if (fs.find? (fun p => p.1 == k)).isSome then
    fs.map (fun p => if p.1 == k then (p.1, v) else p)
  else fs ++ [(k, v)]

/-- The Llama prompt wrapping from the `meta.` branch of the chat
commands: the raw `prompt` (and the raw `system_prompt` when it is truthy
— present and non-empty) inside `[INST] ... [/INST]` delimiters. -/
def meta_wrap (prompt : String) (system_prompt : Option String) : String :=
  match system_prompt with
  | some sp =>
    if sp.isEmpty then "[INST] " ++ prompt ++ " [/INST]"
    else "[INST] " ++ sp ++ "\n\n" ++ prompt ++ " [/INST]"
  | none => "[INST] " ++ prompt ++ " [/INST]"

/-- The request-body assembly shared by `chat_command` and
`stream_chat_command` (cli/chat.py): family dispatch on the model id of
the catalog entry, merging the prompt with `to_request_body` of the
config.  Dict-merge order follows Python insertion order. -/
def build_request_body (model_info : ModelInfo) (config : ModelConfig)
    (prompt : String) (system_prompt : Option String)
    (formatted_prompt : FormattedPrompt) :
    Except ConfigError (List (String × Json)) :=
  if py_startswith model_info.model_id "anthropic.claude-3" then do
    let rb ← to_request_body config
    .ok (("messages", messages_json formatted_prompt) :: rb)
  else if py_startswith model_info.model_id "anthropic." then do
    let rb ← to_request_body config
    .ok (("prompt", .str (flat_prompt formatted_prompt)) :: rb)
  else if py_startswith model_info.model_id "amazon." then do
    let rb ← to_request_body config
    .ok (dict_set rb "inputText" (.str (flat_prompt formatted_prompt)))
  else if py_startswith model_info.model_id "meta." then do
    let rb ← to_request_body config
    .ok (("prompt", .str (meta_wrap prompt system_prompt)) :: rb)
  else do
    let rb ← to_request_body config
    .ok (("prompt", .str (flat_prompt formatted_prompt)) :: rb)

/-- The key list of a request body. -/
def dict_keys (fs : List (String × Json)) : List String :=
  fs.map (fun p => p.1)

/-- The response-text extraction of `chat_command` (cli/chat.py, the
non-streaming path): the family dispatch on the model-id prefixes, each
branch a chain of `.get` calls with defaults over the parsed response
body. -/
def extract_response_text (model_id : String) (body : List (String × Json)) :
    Except PyErr Json :=
  if py_startswith model_id "anthropic.claude-3" then do
    let x ← py_index0 (py_get body "content" (.arr [.obj []]))
    py_get_attr x "text" (.str "")
  else if py_startswith model_id "anthropic." then
    .ok (py_get body "completion" (.str ""))
  else if py_startswith model_id "amazon." then do
    let x ← py_index0 (py_get body "results" (.arr [.obj []]))
    py_get_attr x "outputText" (.str "")
  else if py_startswith model_id "meta." then
    .ok (py_get body "generation" (.str ""))
  else do
    let x ← py_index0 (py_get body "outputs" (.arr [.obj []]))
    py_get_attr x "text" (.str "")

/-- `StreamConfig` (models/model_config.py): streaming/retry settings. -/
structure StreamConfig where
  chunk_size : Int
  retry_attempts : Nat
  base_delay : ℚ
  max_delay : ℚ
  throttle_cooldown : ℚ

/-- The `StreamConfig()` defaults. -/
def stream_config_default : StreamConfig := ⟨1024, 5, 2, 30, 10⟩

/-- `calculate_backoff_delay` (utils/retry.py).  The uniform jitter draw
`random.random()` is passed in explicitly as `rand ∈ [0,1)`; with
`jitter = false` the function returns the pre-jitter delay
`min(base_delay * 2 ** attempt, max_delay)`. -/
def calculate_backoff_delay (attempt : Nat) (base_delay max_delay : ℚ)
    (jitter : Bool) (rand : ℚ) : ℚ :=
  let delay := min (base_delay * 2 ^ attempt) max_delay
  if jitter then delay * (1/2 + rand) else delay

/-- The transport-level failures of
`client.invoke_model_with_response_stream`: a `ClientError` whose message
contains `ThrottlingException`, or any other `ClientError`. -/
inductive TransportErr where
  | throttling : TransportErr
  | other (msg : String) : TransportErr
deriving DecidableEq

/-- `"ThrottlingException" in str(e)`. -/
def is_throttling : TransportErr → Bool
  | .throttling => true
  | .other _ => false

/-- How one `stream_chat_command` invocation ends: the drained and
concatenated stream, a re-raised transport error, a decoding error
escaping the generator, or the implicit `None` return when
`retry_attempts = 0` makes the loop body never run. -/
inductive CallResult where
  | success (text : String) : CallResult
  | failure (e : TransportErr) : CallResult
  | decode_failure (e : PyErr) : CallResult
  | none_returned : CallResult
deriving DecidableEq

/-- Observable outcome of the retry loop: final result, number of
transport invocations, and the pre-jitter backoff delays in order. -/
structure RetryOutcome where
  result : CallResult
  invocations : Nat
  backoff_delays : List ℚ
deriving DecidableEq

/-- The `for attempt in range(stream_config.retry_attempts)` loop of
`stream_chat_command` (cli/chat.py), over the remaining attempt indices.
A successful transport call drains the stream and returns; a throttling
error before the last attempt sleeps via
`handle_rate_limit(attempt + 1, ...)` — whose pre-jitter delay is
`calculate_backoff_delay (attempt+1)` — and continues; any other error,
or throttling on the last attempt, is re-raised. -/
def run_attempts (transport : Nat → Except TransportErr (List (List (String × Json))))
    (retry_attempts : Nat) (base_delay max_delay : ℚ) :
    List Nat → RetryOutcome
  | [] => ⟨.none_returned, 0, []⟩
  | attempt :: rest =>
    match transport attempt with
    | .ok frames =>
      match process_stream_chunks frames with
      | .ok parts => ⟨.success (String.join parts), 1, []⟩
      | .error e => ⟨.decode_failure e, 1, []⟩
    | .error e =>
      if is_throttling e && decide ((attempt : Int) < (retry_attempts : Int) - 1) then
        let d := calculate_backoff_delay (attempt + 1) base_delay max_delay false 0
        let o := run_attempts transport retry_attempts base_delay max_delay rest
        ⟨o.result, o.invocations + 1, d :: o.backoff_delays⟩
      else ⟨.failure e, 1, []⟩

/-- `stream_chat_command`'s retry behaviour against an abstract transport
stub indexed by 0-based attempt number. -/
def stream_chat_retry
    (transport : Nat → Except TransportErr (List (List (String × Json))))
    (cfg : StreamConfig) : RetryOutcome :=
  run_attempts transport cfg.retry_attempts cfg.base_delay cfg.max_delay
    (List.range cfg.retry_attempts)

/-- A store of Python list objects: each cell is one mutable list, refs
are indices.  Used to make aliasing between `ChatHistory.messages` and
the local `messages` variable of `format_prompt` observable. -/
abbrev Store := List (List Message)

/-- Dereference a list object. -/
def cell_get (σ : Store) (r : Nat) : List Message := σ.getD r []

/-- Python slicing `self.messages[-max_messages:]` allocates a fresh list
object holding the selected suffix; the original cell is untouched. -/
def py_slice_last (σ : Store) (r : Nat) (n : Nat) : Store × Nat :=
  (σ ++ [get_context (cell_get σ r) n], σ.length)

/-- Python `l.insert(0, m)`: in-place mutation of the referenced cell. -/
def py_list_insert0 (σ : Store) (r : Nat) (m : Message) : Store :=
  σ.set r (m :: cell_get σ r)

/-- Python `l.append(m)`: in-place mutation of the referenced cell. -/
def py_list_append (σ : Store) (r : Nat) (m : Message) : Store :=
  σ.set r (cell_get σ r ++ [m])

/-- A Python list literal allocates a fresh object. -/
def py_list_new (σ : Store) (l : List Message) : Store × Nat :=
  (σ ++ [l], σ.length)

/-- `format_prompt`'s return value in the store model. -/
inductive PromptRef where
  | strRes (s : String) : PromptRef
  | listRes (r : Nat) : PromptRef

/-- The `elif system_prompt: ... else: ...` tail of `format_prompt` in
the store model: the two-message list is a fresh literal. -/
def format_prompt_ref_no_history (σ : Store) (prompt : String)
    (system_prompt : Option String) : Store × PromptRef :=
  match system_prompt with
  | some sp =>
    if sp.isEmpty then (σ, .strRes prompt)
    else
      let a := py_list_new σ [⟨"system", sp⟩, ⟨"user", prompt⟩]
      (a.1, .listRes a.2)
  | none => (σ, .strRes prompt)

/-- `format_prompt` (cli/chat.py) in the store model: the history is a
reference to a caller-owned list object; `get_context` returns a slice (a
fresh object), into which the system message is inserted and the user
turn appended. -/
def format_prompt_ref (σ : Store) (prompt : String)
    (system_prompt : Option String) (chat_history : Option Nat) :
    Store × PromptRef :=
  match chat_history with
  | some hr =>
    if (cell_get σ hr).isEmpty then
      format_prompt_ref_no_history σ prompt system_prompt
    else
      let a := py_slice_last σ hr 10
      let σ₂ := match system_prompt with
        | some sp =>
          if sp.isEmpty then a.1 else py_list_insert0 a.1 a.2 ⟨"system", sp⟩
        | none => a.1
      let σ₃ := py_list_append σ₂ a.2 ⟨"user", prompt⟩
      (σ₃, .listRes a.2)
  | none => format_prompt_ref_no_history σ prompt system_prompt

/-- A text-bearing leaf is well formed when absent or a string. -/
def text_field_ok (fs : List (String × Json)) (k : String) : Bool :=
  match find_val fs k with
  | none => true
  | some (.str _) => true
  | some _ => false

/-- A message element (of `delta.content` or `outputs`) is well formed
when it is an object whose `text` field, if present, is a string. -/
def elem_ok : Json → Bool
  | .obj g => text_field_ok g "text"
  | _ => false

/-- Well-formedness of one decoded chunk object: all values the decoder
dereferences have the types its `.get`-chains, indexing and string
concatenation expect.  In particular a `message_delta` frame whose
`delta.content` is present must carry a NON-empty array. -/
def is_str : Json → Bool
  | .str _ => true
  | _ => false

/-- Well-formedness of the `delta` value of a `content_block_delta`
frame. -/
def cbd_delta_ok : Option Json → Bool
  | none => true
  | some (.obj g) => text_field_ok g "text"
  | some _ => false

/-- Well-formedness of the `content` value inside a `message_delta`
frame's `delta`: when present it must be a non-empty array whose first
element is a well-formed message element. -/
def md_content_ok : Option Json → Bool
  | none => true
  | some (.arr (x :: _)) => elem_ok x
  | some _ => false

/-- Well-formedness of the `delta` value of a `message_delta` frame. -/
def md_delta_ok : Option Json → Bool
  | none => true
  | some (.obj g) => md_content_ok (find_val g "content")
  | some _ => false

/-- Well-formedness of the `outputs` value. -/
def outputs_ok : Option Json → Bool
  | none => true
  | some (.arr xs) => xs.all elem_ok
  | some _ => false

/-- Well-formedness of the `type`-dispatch branch of a chunk. -/
def type_branch_ok (fs : List (String × Json)) (tv : Json) : Bool :=
  if json_eq_str tv "content_block_delta" then cbd_delta_ok (find_val fs "delta")
  else if json_eq_str tv "message_delta" then md_delta_ok (find_val fs "delta")
  else true

/-- Well-formedness of one decoded chunk object: all values the decoder
dereferences have the types its `.get`-chains, indexing and string
concatenation expect.  In particular a `message_delta` frame whose
`delta.content` is present must carry a NON-empty array. -/
def benign_chunk (fs : List (String × Json)) : Bool :=
  match find_val fs "completion" with
  | some v => is_str v
  | none =>
  match find_val fs "type" with
  | some tv => type_branch_ok fs tv
  | none =>
  match find_val fs "outputText" with
  | some v => is_str v
  | none =>
  match find_val fs "generation" with
  | some v => is_str v
  | none =>
  match find_val fs "text" with
  | some v => is_str v
  | none => outputs_ok (find_val fs "outputs")

/-- Transport stub for the retry scenarios: throttles on the first two
attempts (0-based indices 0 and 1) and streams one `completion` frame on
the third. -/
def stub_throttle_twice : Nat → Except TransportErr (List (List (String × Json))) :=
  fun attempt =>
    if attempt < 2 then .error .throttling
    else .ok [[("completion", Json.str "done")]]

/-- Transport stub that throttles on every attempt. -/
def stub_always_throttle : Nat → Except TransportErr (List (List (String × Json))) :=
  fun _ => .error .throttling

/-! ## Helper lemmas -/

/-- Two non-empty prefixes of the same character list share their head. -/
theorem isPrefixOf_head_eq {l as bs : List Char} {a b : Char}
    (ha : (a :: as).isPrefixOf l = true) (hb : (b :: bs).isPrefixOf l = true) :
    a = b := by
  cases l with
  | nil => simp [List.isPrefixOf] at ha
  | cons c cs =>
    simp [List.isPrefixOf] at ha hb
    exact ha.1.trans hb.1.symm

/-- A model id of the `meta.` family matches none of the family tests that
the source dispatch checks before it. -/
theorem py_startswith_meta_excl (s : String)
    (h : py_startswith s "meta." = true) :
    py_startswith s "anthropic.claude-3" = false ∧
    py_startswith s "anthropic." = false ∧
    py_startswith s "amazon." = false := by
  unfold py_startswith at h ⊢
  have h' : (['m', 'e', 't', 'a', '.'] : List Char).isPrefixOf s.data = true := h
  refine ⟨?_, ?_, ?_⟩
  · cases hb : ("anthropic.claude-3".data.isPrefixOf s.data) with
    | false => rfl
    | true =>
      have hb' : (['a', 'n', 't', 'h', 'r', 'o', 'p', 'i', 'c', '.', 'c', 'l',
          'a', 'u', 'd', 'e', '-', '3'] : List Char).isPrefixOf s.data = true := hb
      exact absurd (isPrefixOf_head_eq h' hb') (by decide)
  · cases hb : ("anthropic.".data.isPrefixOf s.data) with
    | false => rfl
    | true =>
      have hb' : (['a', 'n', 't', 'h', 'r', 'o', 'p', 'i', 'c', '.'] :
          List Char).isPrefixOf s.data = true := hb
      exact absurd (isPrefixOf_head_eq h' hb') (by decide)
  · cases hb : ("amazon.".data.isPrefixOf s.data) with
    | false => rfl
    | true =>
      have hb' : (['a', 'm', 'a', 'z', 'o', 'n', '.'] :
          List Char).isPrefixOf s.data = true := hb
      exact absurd (isPrefixOf_head_eq h' hb') (by decide)

/-- Reduction of an Except bind on an ok value. -/
theorem except_bind_ok {α β ε : Type} (a : α) (f : α → Except ε β) :
    (Except.ok a >>= f) = f a := rfl

/-- Reduction of an Except bind on an error value. -/
theorem except_bind_error {α β ε : Type} (e : ε) (f : α → Except ε β) :
    ((Except.error e : Except ε α) >>= f) = Except.error e := rfl

/-- Two incomparable prefixes cannot both start the same string. -/
theorem py_startswith_incomp (s p1 p2 : String)
    (h1 : py_startswith s p1 = true)
    (hn1 : p1.data.isPrefixOf p2.data = false)
    (hn2 : p2.data.isPrefixOf p1.data = false) :
    py_startswith s p2 = false := by
  cases h2 : py_startswith s p2 with
  | false => rfl
  | true =>
    exfalso
    unfold py_startswith at h1 h2
    have hp1 : p1.data <+: s.data := List.isPrefixOf_iff_prefix.mp h1
    have hp2 : p2.data <+: s.data := List.isPrefixOf_iff_prefix.mp h2
    rcases List.prefix_or_prefix_of_prefix hp1 hp2 with h | h
    · rw [List.isPrefixOf_iff_prefix.mpr h] at hn1
      simp at hn1
    · rw [List.isPrefixOf_iff_prefix.mpr h] at hn2
      simp at hn2

/-- The first pre-jitter backoff delay at the defaults. -/
theorem calc_delay_one : calculate_backoff_delay 1 2 30 false 0 = 4 := by
  unfold calculate_backoff_delay
  norm_num

/-- The second pre-jitter backoff delay at the defaults. -/
theorem calc_delay_two : calculate_backoff_delay 2 2 30 false 0 = 8 := by
  unfold calculate_backoff_delay
  norm_num

/-- Outcome of the throttle-twice scenario at the default stream config. -/
theorem stub_twice_outcome :
    stream_chat_retry stub_throttle_twice stream_config_default =
      ⟨.success "done", 3, [4, 8]⟩ := by
  have h : stream_chat_retry stub_throttle_twice stream_config_default =
      ⟨.success "done", 3,
        [calculate_backoff_delay 1 2 30 false 0,
         calculate_backoff_delay 2 2 30 false 0]⟩ := rfl
  rw [h, calc_delay_one, calc_delay_two]

/-- Outcome of the always-throttle scenario at `retry_attempts = 3`. -/
theorem stub_always_outcome :
    stream_chat_retry stub_always_throttle ⟨1024, 3, 2, 30, 10⟩ =
      ⟨.failure .throttling, 3, [4, 8]⟩ := by
  have h : stream_chat_retry stub_always_throttle ⟨1024, 3, 2, 30, 10⟩ =
      ⟨.failure .throttling, 3,
        [calculate_backoff_delay 1 2 30 false 0,
         calculate_backoff_delay 2 2 30 false 0]⟩ := rfl
  rw [h, calc_delay_one, calc_delay_two]

/-! ## Claim theorems -/

/-- C1 counterexample: for the Family A model id, a non-streaming response
body missing `content[0].text` entirely (the empty object) makes
`chat_command`'s extraction return the empty string successfully — it does
not fail with an `UnrecognizedShape` error. -/
theorem c1_counterexample :
    extract_response_text "anthropic.claude-3-sonnet-20240229-v1:0" [] =
      .ok (.str "") := rfl

/-- C1 amended: non-streaming extraction never fails with an
`UnrecognizedShape` error — no such error exists.  For every provider
family, a body whose family's top-level expected field is absent makes
extraction silently return the empty string (the default-chained `.get`
lookups); for the array-indexing families (A: `content`, C: `results`,
E: `outputs`) a body whose top-level field is present but holds an empty
array instead raises an IndexError. -/
theorem c1_amended :
    (∀ (id : String) (body : List (String × Json)),
      py_startswith id "anthropic.claude-3" = true →
      find_val body "content" = none →
      extract_response_text id body = .ok (.str "")) ∧
    (∀ (id : String) (body : List (String × Json)),
      py_startswith id "anthropic.claude-3" = true →
      find_val body "content" = some (.arr []) →
      extract_response_text id body = .error .indexError) ∧
    (∀ (id : String) (body : List (String × Json)),
      py_startswith id "anthropic.claude-3" = false →
      py_startswith id "anthropic." = true →
      find_val body "completion" = none →
      extract_response_text id body = .ok (.str "")) ∧
    (∀ (id : String) (body : List (String × Json)),
      py_startswith id "amazon." = true →
      find_val body "results" = none →
      extract_response_text id body = .ok (.str "")) ∧
    (∀ (id : String) (body : List (String × Json)),
      py_startswith id "amazon." = true →
      find_val body "results" = some (.arr []) →
      extract_response_text id body = .error .indexError) ∧
    (∀ (id : String) (body : List (String × Json)),
      py_startswith id "meta." = true →
      find_val body "generation" = none →
      extract_response_text id body = .ok (.str "")) ∧
    (∀ (id : String) (body : List (String × Json)),
      py_startswith id "anthropic.claude-3" = false →
      py_startswith id "anthropic." = false →
      py_startswith id "amazon." = false →
      py_startswith id "meta." = false →
      find_val body "outputs" = none →
      extract_response_text id body = .ok (.str "")) ∧
    (∀ (id : String) (body : List (String × Json)),
      py_startswith id "anthropic.claude-3" = false →
      py_startswith id "anthropic." = false →
      py_startswith id "amazon." = false →
      py_startswith id "meta." = false →
      find_val body "outputs" = some (.arr []) →
      extract_response_text id body = .error .indexError) := by
  have hamz1 : ∀ id : String, py_startswith id "amazon." = true →
      py_startswith id "anthropic.claude-3" = false := fun id h =>
    py_startswith_incomp id "amazon." "anthropic.claude-3" h
      (by decide) (by decide)
  have hamz2 : ∀ id : String, py_startswith id "amazon." = true →
      py_startswith id "anthropic." = false := fun id h =>
    py_startswith_incomp id "amazon." "anthropic." h (by decide) (by decide)
  refine ⟨?_, ?_, ?_, ?_, ?_, ?_, ?_, ?_⟩
  · intro id body h1 hk
    unfold extract_response_text
    rw [if_pos h1]
    simp [py_get, hk, py_index0, py_get_attr, except_bind_ok]
    rfl
  · intro id body h1 hk
    unfold extract_response_text
    rw [if_pos h1]
    simp [py_get, hk, py_index0, except_bind_error]
  · intro id body h0 h1 hk
    unfold extract_response_text
    simp only [h0, Bool.false_eq_true, if_false]
    rw [if_pos h1]
    simp [py_get, hk]
  · intro id body h1 hk
    unfold extract_response_text
    simp only [hamz1 id h1, hamz2 id h1, Bool.false_eq_true, if_false]
    rw [if_pos h1]
    simp [py_get, hk, py_index0, py_get_attr, except_bind_ok]
    rfl
  · intro id body h1 hk
    unfold extract_response_text
    simp only [hamz1 id h1, hamz2 id h1, Bool.false_eq_true, if_false]
    rw [if_pos h1]
    simp [py_get, hk, py_index0, except_bind_error]
  · intro id body h1 hk
    obtain ⟨hm1, hm2, hm3⟩ := py_startswith_meta_excl id h1
    unfold extract_response_text
    simp only [hm1, hm2, hm3, Bool.false_eq_true, if_false]
    rw [if_pos h1]
    simp [py_get, hk]
  · intro id body h1 h2 h3 h4 hk
    unfold extract_response_text
    simp only [h1, h2, h3, h4, Bool.false_eq_true, if_false]
    simp [py_get, hk, py_index0, py_get_attr, except_bind_ok]
    rfl
  · intro id body h1 h2 h3 h4 hk
    unfold extract_response_text
    simp only [h1, h2, h3, h4, Bool.false_eq_true, if_false]
    simp [py_get, hk, py_index0, except_bind_error]

/-- C1 witness: a Family A body without the `content` key silently
extracts to the empty string. -/
theorem c1_amended_witness :
    extract_response_text "anthropic.claude-3-sonnet-20240229-v1:0"
      [("foo", Json.bool true)] = .ok (.str "") :=
  c1_amended.1 "anthropic.claude-3-sonnet-20240229-v1:0"
    [("foo", Json.bool true)] (by decide) rfl

/-- C2 counterexample: with the stub throttling on attempts 1 and 2 and
succeeding on attempt 3 at the defaults (maxAttempts=5, baseDelay=2.0,
maxDelay=30.0), the recorded pre-jitter delays are not 2.0 then 4.0. -/
theorem c2_counterexample :
    (stream_chat_retry stub_throttle_twice stream_config_default).backoff_delays ≠
      [2, 4] := by
  rw [stub_twice_outcome]
  decide

/-- C2 amended: in that scenario the call succeeds, backoff is invoked
exactly twice, and the pre-jitter delays are 4.0 then 8.0 (the code
passes `attempt + 1` to the backoff computation, so the exponent starts
at 1, not 0). -/
theorem c2_amended :
    (stream_chat_retry stub_throttle_twice stream_config_default).result =
      .success "done" ∧
    (stream_chat_retry stub_throttle_twice stream_config_default).backoff_delays =
      [4, 8] ∧
    (stream_chat_retry stub_throttle_twice stream_config_default).backoff_delays.length =
      2 := by
  rw [stub_twice_outcome]
  exact ⟨rfl, rfl, rfl⟩

/-- C3 counterexample: with the always-throttling stub and maxAttempts=3,
the streaming call fails with the raw throttling error itself (re-raised),
not with a distinct `RetryExhausted` exhaustion error — no such error
exists in the code. -/
theorem c3_counterexample :
    (stream_chat_retry stub_always_throttle ⟨1024, 3, 2, 30, 10⟩).result =
      .failure .throttling := by
  rw [stub_always_outcome]

/-- C3 amended: in that scenario the transport is invoked exactly 3 times
(no further retries), backoff runs twice in between, and the call then
fails by re-raising the raw throttling error. -/
theorem c3_amended :
    (stream_chat_retry stub_always_throttle ⟨1024, 3, 2, 30, 10⟩).invocations = 3 ∧
    (stream_chat_retry stub_always_throttle ⟨1024, 3, 2, 30, 10⟩).result =
      .failure .throttling ∧
    (stream_chat_retry stub_always_throttle ⟨1024, 3, 2, 30, 10⟩).backoff_delays.length =
      2 := by
  rw [stub_always_outcome]
  exact ⟨rfl, rfl, rfl⟩

/-- C7: the Stream Decoder yields exactly ["Hi", " there"] in order over
the two `completion` frames (concatenating to "Hi there"), and an
unrecognized `{"heartbeat": true}` frame yields nothing, raises no error,
and leaves later frames processed. -/
theorem c7_stream_decoder :
    process_stream_chunks
        [[("completion", Json.str "Hi")], [("completion", Json.str " there")]] =
      .ok ["Hi", " there"] ∧
    String.join ["Hi", " there"] = "Hi there" ∧
    process_chunk [("heartbeat", Json.bool true)] = .ok [] ∧
    process_stream_chunks
        [[("completion", Json.str "Hi")], [("heartbeat", Json.bool true)],
         [("completion", Json.str " there")]] =
      .ok ["Hi", " there"] :=
  ⟨rfl, rfl, rfl, rfl⟩

/-- C4: any config with temperature or top_p outside [0,1], top_k < 0, or
max_tokens < 1 fails construction with an error kind matching one of the
violated parameters, and no config instance is observable (construction
never returns `.ok`). -/
theorem c4_validation (model_id : String) (t : ℚ) (m : Int) (p : ℚ) (k : Int)
    (ss : Option (List String)) (av : Option String) (mi : Option ModelInfo)
    (h : ¬ (0 ≤ t ∧ t ≤ 1) ∨ ¬ (0 ≤ p ∧ p ≤ 1) ∨ k < 0 ∨ m < 1) :
    (∃ e, mk_model_config model_id t m p k ss av mi = .error e ∧
      ((e = .temperatureRange ∧ ¬ (0 ≤ t ∧ t ≤ 1)) ∨
       (e = .topPRange ∧ ¬ (0 ≤ p ∧ p ≤ 1)) ∨
       (e = .topKNegative ∧ k < 0) ∨
       (e = .maxTokensPositive ∧ m < 1))) ∧
    ∀ c, mk_model_config model_id t m p k ss av mi ≠ .ok c := by
  unfold mk_model_config
  by_cases h1 : ¬ (0 ≤ t ∧ t ≤ 1)
  · rw [if_pos h1]
    exact ⟨⟨.temperatureRange, rfl, Or.inl ⟨rfl, h1⟩⟩,
      fun c hc => Except.noConfusion hc⟩
  · rw [if_neg h1]
    by_cases h2 : ¬ (0 ≤ p ∧ p ≤ 1)
    · rw [if_pos h2]
      exact ⟨⟨.topPRange, rfl, Or.inr (Or.inl ⟨rfl, h2⟩)⟩,
        fun c hc => Except.noConfusion hc⟩
    · rw [if_neg h2]
      by_cases h3 : k < 0
      · rw [if_pos h3]
        exact ⟨⟨.topKNegative, rfl, Or.inr (Or.inr (Or.inl ⟨rfl, h3⟩))⟩,
          fun c hc => Except.noConfusion hc⟩
      · rw [if_neg h3]
        by_cases h4 : m < 1
        · rw [if_pos h4]
          exact ⟨⟨.maxTokensPositive, rfl, Or.inr (Or.inr (Or.inr ⟨rfl, h4⟩))⟩,
            fun c hc => Except.noConfusion hc⟩
        · rw [if_neg h4]
          exfalso
          rcases h with h | h | h | h
          · exact h1 h
          · exact h2 h
          · exact h3 h
          · exact h4 h

/-- C4 witness: construction with temperature 2 fails with the
temperature error kind and yields no instance. -/
theorem c4_validation_witness :
    (∃ e, mk_model_config "test.model" 2 100 1 250 none none none = .error e ∧
      ((e = .temperatureRange ∧ ¬ ((0:ℚ) ≤ 2 ∧ (2:ℚ) ≤ 1)) ∨
       (e = .topPRange ∧ ¬ ((0:ℚ) ≤ 1 ∧ (1:ℚ) ≤ 1)) ∨
       (e = .topKNegative ∧ (250:Int) < 0) ∨
       (e = .maxTokensPositive ∧ (100:Int) < 1))) ∧
    ∀ c, mk_model_config "test.model" 2 100 1 250 none none none ≠ .ok c :=
  c4_validation "test.model" 2 100 1 250 none none none (Or.inl (by decide))

/-- C5: `from_model_name` with `max_tokens = 250000` on `claude-sonnet`
fails with the exceeds-context-window error carrying window 200000 (for
any temperature, since the check precedes validation); and in general any
requested `max_tokens` above the looked-up catalog entry's context window
fails the same way. -/
theorem c5_exceeds_context_window :
    (∀ t : ℚ, from_model_name "claude-sonnet" 250000 t =
      .error (.exceedsContextWindow 250000 200000)) ∧
    ∀ (name : String) (tokens : Int) (info : ModelInfo) (t : ℚ),
      get_model_info name = some info → tokens > info.context_window →
      from_model_name name tokens t =
        .error (.exceedsContextWindow tokens info.context_window) := by
  constructor
  · intro t
    rfl
  · intro name tokens info t hinfo hgt
    unfold from_model_name
    simp only [hinfo]
    rw [if_pos hgt]

/-- C5 witness: `titan-express` (window 8000) with `max_tokens = 9000`
fails with the exceeds-context-window error. -/
theorem c5_exceeds_context_window_witness :
    from_model_name "titan-express" 9000 1 =
      .error (.exceedsContextWindow 9000 8000) :=
  c5_exceeds_context_window.2 "titan-express" 9000
    ⟨"amazon.titan-text-express-v1", none, 8000, true⟩ 1 rfl (by decide)

/-- C6: for every Family D model (model id starting with the `meta.`
provider tag), the assembled request body has exactly the fields
`prompt`, `max_gen_len`, `temperature`, `top_p` — in particular no
`top_k` and no stop-sequence field — and the prompt string is wrapped in
the fixed `[INST] ... [/INST]` instruction delimiters. -/
theorem c6_family_d_body (info : ModelInfo) (c : ModelConfig) (p : String)
    (sp : Option String) (fp : FormattedPrompt)
    (hinfo : py_startswith info.model_id "meta." = true)
    (hc : py_startswith c.model_id "meta." = true) :
    build_request_body info c p sp fp = .ok
      [("prompt", .str (meta_wrap p sp)),
       ("max_gen_len", .num c.max_tokens),
       ("temperature", .num c.temperature),
       ("top_p", .num c.top_p)] ∧
    (∀ body, build_request_body info c p sp fp = .ok body →
      dict_keys body = ["prompt", "max_gen_len", "temperature", "top_p"] ∧
      "top_k" ∉ dict_keys body ∧ "stop_sequences" ∉ dict_keys body ∧
      "stop" ∉ dict_keys body) ∧
    ∃ inner, meta_wrap p sp = "[INST] " ++ inner ++ " [/INST]" := by
  obtain ⟨hi1, hi2, hi3⟩ := py_startswith_meta_excl info.model_id hinfo
  obtain ⟨hc1, hc2, hc3⟩ := py_startswith_meta_excl c.model_id hc
  have hbody : build_request_body info c p sp fp = .ok
      [("prompt", .str (meta_wrap p sp)),
       ("max_gen_len", .num c.max_tokens),
       ("temperature", .num c.temperature),
       ("top_p", .num c.top_p)] := by
    unfold build_request_body to_request_body
    rw [hi1, hi2, hi3, hinfo, hc1, hc2, hc3, hc]
    rfl
  refine ⟨hbody, ?_, ?_⟩
  · intro body hb
    rw [hbody] at hb
    cases hb
    have hkeys : dict_keys
        [("prompt", Json.str (meta_wrap p sp)),
         ("max_gen_len", Json.num c.max_tokens),
         ("temperature", Json.num c.temperature),
         ("top_p", Json.num c.top_p)] =
        ["prompt", "max_gen_len", "temperature", "top_p"] := rfl
    rw [hkeys]
    exact ⟨rfl, by decide, by decide, by decide⟩
  · cases sp with
    | some s =>
      cases hs : s.isEmpty with
      | true =>
        refine ⟨p, ?_⟩
        simp only [meta_wrap, hs, if_true]
      | false =>
        refine ⟨s ++ "\n\n" ++ p, ?_⟩
        simp only [meta_wrap, hs, Bool.false_eq_true, if_false,
          String.append_assoc]
    | none => exact ⟨p, rfl⟩

/-- C6 witness: the body for `llama-70b` with a bare prompt. -/
theorem c6_family_d_body_witness :
    build_request_body ⟨"meta.llama3-70b-instruct-v1:0", none, 32000, true⟩
        ⟨"meta.llama3-70b-instruct-v1:0", 1, 100, 1, 250, none, none, none⟩
        "hi" none (.str "hi") = .ok
      [("prompt", .str (meta_wrap "hi" none)),
       ("max_gen_len", .num (100 : Int)),
       ("temperature", .num 1),
       ("top_p", .num 1)] :=
  (c6_family_d_body ⟨"meta.llama3-70b-instruct-v1:0", none, 32000, true⟩
    ⟨"meta.llama3-70b-instruct-v1:0", 1, 100, 1, 250, none, none, none⟩
    "hi" none (.str "hi") (by decide) (by decide)).1

/-- C8: prompt resolution is the three-way case split, with "a system
instruction is given" meaning the Python-truthy case (present and
non-empty) — non-empty history gives an ordered message list (system
message first when a non-empty one is given, then the trimmed context, a
length-min(10, |history|) suffix of the history in order, then the new
user turn; a `None` or empty-string system prompt contributes nothing);
empty or absent history with a non-empty system instruction gives the
two-element system+user list; otherwise — including an empty-string
system prompt — the bare prompt string is returned. -/
theorem c8_format_prompt :
    (∀ (p s : String) (h : List Message), h ≠ [] → s.isEmpty = false →
      format_prompt p (some s) (some h) =
        .msgs (Message.mk "system" s ::
          (get_context h 10 ++ [Message.mk "user" p])) ∧
      get_context h 10 <:+ h ∧
      (get_context h 10).length = min 10 h.length) ∧
    (∀ (p : String) (h : List Message), h ≠ [] →
      format_prompt p none (some h) =
        .msgs (get_context h 10 ++ [Message.mk "user" p]) ∧
      format_prompt p (some "") (some h) =
        .msgs (get_context h 10 ++ [Message.mk "user" p])) ∧
    (∀ (p s : String), s.isEmpty = false →
      format_prompt p (some s) none =
        .msgs [Message.mk "system" s, Message.mk "user" p] ∧
      format_prompt p (some s) (some []) =
        .msgs [Message.mk "system" s, Message.mk "user" p]) ∧
    (∀ p : String,
      format_prompt p none none = .str p ∧
      format_prompt p none (some []) = .str p ∧
      format_prompt p (some "") none = .str p ∧
      format_prompt p (some "") (some []) = .str p) := by
  refine ⟨?_, ?_, ?_, ?_⟩
  · intro p s h hne hse
    have hemp : h.isEmpty = false := by simpa [List.isEmpty_iff] using hne
    refine ⟨?_, ?_, ?_⟩
    · simp only [format_prompt, hemp, hse, Bool.false_eq_true, if_false]
      rfl
    · unfold get_context
      rw [if_neg (by decide)]
      exact List.drop_suffix _ _
    · unfold get_context
      rw [if_neg (by decide), List.length_drop]
      omega
  · intro p h hne
    have hemp : h.isEmpty = false := by simpa [List.isEmpty_iff] using hne
    constructor
    · simp only [format_prompt, hemp, Bool.false_eq_true, if_false]
    · simp only [format_prompt, hemp, Bool.false_eq_true, if_false]
      rfl
  · intro p s hse
    constructor
    · simp only [format_prompt, format_prompt_no_history, hse,
        Bool.false_eq_true, if_false]
    · simp only [format_prompt, format_prompt_no_history, hse,
        Bool.false_eq_true, if_false, List.isEmpty, if_true]
  · intro p
    exact ⟨rfl, rfl, rfl, rfl⟩

/-- C8 witness: a one-message history with a non-empty system
instruction. -/
theorem c8_format_prompt_witness :
    format_prompt "q" (some "sys") (some [Message.mk "user" "a"]) =
      .msgs (Message.mk "system" "sys" ::
        (get_context [Message.mk "user" "a"] 10 ++ [Message.mk "user" "q"])) ∧
    get_context [Message.mk "user" "a"] 10 <:+ [Message.mk "user" "a"] ∧
    (get_context [Message.mk "user" "a"] 10).length =
      min 10 ([Message.mk "user" "a"] : List Message).length :=
  c8_format_prompt.1 "q" "sys" [Message.mk "user" "a"] (by simp) rfl

/-- Well-formed message elements make the `outputs` loop succeed. -/
theorem outputs_go_ok (xs : List Json) (h : xs.all elem_ok = true) :
    ∃ out, process_outputs.go xs = .ok out := by
  induction xs with
  | nil => exact ⟨[], rfl⟩
  | cons x rest ih =>
    simp only [List.all_cons, Bool.and_eq_true] at h
    obtain ⟨hx, hrest⟩ := h
    obtain ⟨out, hout⟩ := ih hrest
    cases x with
    | obj g =>
      unfold elem_ok text_field_ok at hx
      cases htext : find_val g "text" with
      | none =>
        refine ⟨"" :: out, ?_⟩
        unfold process_outputs.go
        simp only [py_get_attr, py_get, htext, py_add_str, hout]
        rfl
      | some t =>
        simp only [htext] at hx
        cases t with
        | str s =>
          refine ⟨s :: out, ?_⟩
          unfold process_outputs.go
          simp only [py_get_attr, py_get, htext, py_add_str, hout]
          rfl
        | null => simp at hx
        | bool b => simp at hx
        | num q => simp at hx
        | arr ys => simp at hx
        | obj g2 => simp at hx
    | null => simp [elem_ok] at hx
    | bool b => simp [elem_ok] at hx
    | num q => simp [elem_ok] at hx
    | str s => simp [elem_ok] at hx
    | arr ys => simp [elem_ok] at hx

/-- A well-formed chunk is processed without error. -/
theorem benign_process_chunk (fs : List (String × Json))
    (hb : benign_chunk fs = true) : ∃ out, process_chunk fs = .ok out := by
  unfold benign_chunk at hb
  unfold process_chunk
  cases hcomp : find_val fs "completion" with
  | some v =>
    simp only [hcomp] at hb ⊢
    cases v with
    | str s => exact ⟨[s], rfl⟩
    | null => simp [is_str] at hb
    | bool b => simp [is_str] at hb
    | num q => simp [is_str] at hb
    | arr xs => simp [is_str] at hb
    | obj g => simp [is_str] at hb
  | none =>
    simp only [hcomp] at hb ⊢
    cases hty : find_val fs "type" with
    | some tv =>
      simp only [hty] at hb ⊢
      unfold type_branch_ok at hb
      by_cases h1 : json_eq_str tv "content_block_delta" = true
      · rw [if_pos h1] at hb
        rw [if_pos h1]
        cases hdelta : find_val fs "delta" with
        | none =>
          refine ⟨[""], ?_⟩
          simp only [py_get, hdelta]
          rfl
        | some d =>
          rw [hdelta] at hb
          cases d with
          | obj g =>
            simp only [cbd_delta_ok] at hb
            unfold text_field_ok at hb
            cases htext : find_val g "text" with
            | none =>
              refine ⟨[""], ?_⟩
              simp only [py_get, hdelta, py_get_attr, htext, Option.getD_some,
                Option.getD_none]
              rfl
            | some t =>
              rw [htext] at hb
              cases t with
              | str s =>
                refine ⟨[s], ?_⟩
                simp only [py_get, hdelta, py_get_attr, htext, Option.getD_some,
                Option.getD_none]
                rfl
              | null => simp at hb
              | bool b => simp at hb
              | num q => simp at hb
              | arr xs => simp at hb
              | obj g2 => simp at hb
          | null => simp [cbd_delta_ok] at hb
          | bool b => simp [cbd_delta_ok] at hb
          | num q => simp [cbd_delta_ok] at hb
          | str s => simp [cbd_delta_ok] at hb
          | arr xs => simp [cbd_delta_ok] at hb
      · rw [if_neg h1] at hb
        rw [if_neg h1]
        by_cases h2 : json_eq_str tv "message_delta" = true
        · rw [if_pos h2] at hb
          rw [if_pos h2]
          cases hdelta : find_val fs "delta" with
          | none =>
            refine ⟨[""], ?_⟩
            simp only [py_get, hdelta]
            rfl
          | some d =>
            rw [hdelta] at hb
            cases d with
            | obj g =>
              simp only [md_delta_ok] at hb
              cases hcont : find_val g "content" with
              | none =>
                refine ⟨[""], ?_⟩
                simp only [py_get, hdelta, py_get_attr, py_index0, hcont,
                  Option.getD_some, Option.getD_none]
                rfl
              | some cv =>
                rw [hcont] at hb
                cases cv with
                | arr xs =>
                  cases xs with
                  | nil => simp [md_content_ok] at hb
                  | cons x rest =>
                    simp only [md_content_ok] at hb
                    cases x with
                    | obj gx =>
                      simp only [elem_ok] at hb
                      unfold text_field_ok at hb
                      cases htext : find_val gx "text" with
                      | none =>
                        refine ⟨[""], ?_⟩
                        simp only [py_get, hdelta, py_get_attr, py_index0,
                          py_add_str, hcont, htext, except_bind_ok,
                          Option.getD_some, Option.getD_none]
                      | some t =>
                        rw [htext] at hb
                        cases t with
                        | str s =>
                          refine ⟨[s], ?_⟩
                          simp only [py_get, hdelta, py_get_attr, py_index0,
                            py_add_str, hcont, htext, except_bind_ok,
                            Option.getD_some, Option.getD_none]
                        | null => simp at hb
                        | bool b => simp at hb
                        | num q => simp at hb
                        | arr ys => simp at hb
                        | obj g2 => simp at hb
                    | null => simp [elem_ok] at hb
                    | bool b => simp [elem_ok] at hb
                    | num q => simp [elem_ok] at hb
                    | str s => simp [elem_ok] at hb
                    | arr ys => simp [elem_ok] at hb
                | null => simp [md_content_ok] at hb
                | bool b => simp [md_content_ok] at hb
                | num q => simp [md_content_ok] at hb
                | str s => simp [md_content_ok] at hb
                | obj g2 => simp [md_content_ok] at hb
            | null => simp [md_delta_ok] at hb
            | bool b => simp [md_delta_ok] at hb
            | num q => simp [md_delta_ok] at hb
            | str s => simp [md_delta_ok] at hb
            | arr xs => simp [md_delta_ok] at hb
        · rw [if_neg h2]
          exact ⟨[], rfl⟩
    | none =>
      simp only [hty] at hb ⊢
      cases hot : find_val fs "outputText" with
      | some v =>
        simp only [hot] at hb ⊢
        cases v with
        | str s => exact ⟨[s], rfl⟩
        | null => simp [is_str] at hb
        | bool b => simp [is_str] at hb
        | num q => simp [is_str] at hb
        | arr xs => simp [is_str] at hb
        | obj g => simp [is_str] at hb
      | none =>
        simp only [hot] at hb ⊢
        cases hgen : find_val fs "generation" with
        | some v =>
          simp only [hgen] at hb ⊢
          cases v with
          | str s => exact ⟨[s], rfl⟩
          | null => simp [is_str] at hb
          | bool b => simp [is_str] at hb
          | num q => simp [is_str] at hb
          | arr xs => simp [is_str] at hb
          | obj g => simp [is_str] at hb
        | none =>
          simp only [hgen] at hb ⊢
          cases htxt : find_val fs "text" with
          | some v =>
            simp only [htxt] at hb ⊢
            cases v with
            | str s => exact ⟨[s], rfl⟩
            | null => simp [is_str] at hb
            | bool b => simp [is_str] at hb
            | num q => simp [is_str] at hb
            | arr xs => simp [is_str] at hb
            | obj g => simp [is_str] at hb
          | none =>
            simp only [htxt] at hb ⊢
            cases houts : find_val fs "outputs" with
            | none => exact ⟨[], rfl⟩
            | some v =>
              rw [houts] at hb
              simp only [houts]
              cases v with
              | arr xs =>
                simp only [outputs_ok] at hb
                obtain ⟨out, hgo⟩ := outputs_go_ok xs hb
                exact ⟨out, by
                  rw [show process_outputs (Json.arr xs) =
                    process_outputs.go xs from rfl, hgo]⟩
              | null => simp [outputs_ok] at hb
              | bool b => simp [outputs_ok] at hb
              | num q => simp [outputs_ok] at hb
              | str s => simp [outputs_ok] at hb
              | obj g => simp [outputs_ok] at hb

/-- C9 counterexample: a frame of type `message_delta` whose
`delta.content` is a present but empty array makes the Stream Decoder
raise an IndexError (`delta.get('content', [{}])[0]` indexes the empty
list) instead of running to completion. -/
theorem c9_counterexample :
    process_stream_chunks
        [[("type", Json.str "message_delta"),
          ("delta", Json.obj [("content", Json.arr [])])]] =
      .error .indexError := rfl

/-- C9 amended: the Stream Decoder runs to completion — every frame
either yields its text fragments or is skipped — over every finite
sequence of well-formed object frames, where well-formed means the
dereferenced values have the expected types and, in particular, a
`message_delta` frame's `delta.content`, when present, is a non-empty
array (a present empty array raises IndexError, see the
counterexample). -/
theorem c9_amended (chunks : List (List (String × Json)))
    (h : ∀ c ∈ chunks, benign_chunk c = true) :
    ∃ out, process_stream_chunks chunks = .ok out := by
  induction chunks with
  | nil => exact ⟨[], rfl⟩
  | cons c rest ih =>
    obtain ⟨xs, hxs⟩ := benign_process_chunk c (h c (List.mem_cons_self c rest))
    obtain ⟨ys, hys⟩ := ih (fun d hd => h d (List.mem_cons_of_mem c hd))
    refine ⟨xs ++ ys, ?_⟩
    unfold process_stream_chunks
    rw [hxs]
    simp only [except_bind_ok]
    rw [hys]
    rfl

/-- C9 witness: a mixed benign sequence (a Llama fragment, a heartbeat,
an empty `message_delta`) processes to completion. -/
theorem c9_amended_witness :
    ∃ out, process_stream_chunks
        [[("generation", Json.str "ok")],
         [("heartbeat", Json.bool true)],
         [("type", Json.str "message_delta")]] = .ok out :=
  c9_amended
    [[("generation", Json.str "ok")],
     [("heartbeat", Json.bool true)],
     [("type", Json.str "message_delta")]]
    (by decide)

/-- Appending a fresh cell leaves existing cells unchanged. -/
theorem cell_get_append (σ : Store) (c : List Message) (r : Nat)
    (h : r < σ.length) : cell_get (σ ++ [c]) r = cell_get σ r := by
  unfold cell_get
  rw [List.getD_eq_getElem?_getD, List.getD_eq_getElem?_getD,
    List.getElem?_append, if_pos h]

/-- Setting one cell leaves every other cell unchanged. -/
theorem cell_get_set_ne (σ : Store) (i : Nat) (v : List Message) (r : Nat)
    (h : r ≠ i) : cell_get (σ.set i v) r = cell_get σ r := by
  unfold cell_get
  rw [List.getD_eq_getElem?_getD, List.getD_eq_getElem?_getD,
    List.getElem?_set_ne (fun he => h he.symm)]

/-- C10: `format_prompt` never mutates the caller's conversation history
(nor any other pre-existing list object): in the store model, where the
history is a reference to a caller-owned list and Python slicing
allocates a fresh object, every cell that existed before the call holds
the same value afterwards. -/
theorem c10_format_prompt_no_mutation (σ : Store) (p : String)
    (sp : Option String) (hist : Option Nat) (r : Nat) (hr : r < σ.length) :
    cell_get (format_prompt_ref σ p sp hist).1 r = cell_get σ r := by
  have hno : ∀ sp2, cell_get (format_prompt_ref_no_history σ p sp2).1 r =
      cell_get σ r := by
    intro sp2
    cases sp2 with
    | some s =>
      cases hs : s.isEmpty with
      | true => simp only [format_prompt_ref_no_history, hs, if_true]
      | false =>
        simp only [format_prompt_ref_no_history, hs, Bool.false_eq_true,
          if_false]
        exact cell_get_append σ _ r hr
    | none => rfl
  cases hist with
  | none => exact hno sp
  | some hr0 =>
    simp only [format_prompt_ref]
    by_cases hemp : (cell_get σ hr0).isEmpty = true
    · rw [if_pos hemp]
      exact hno sp
    · rw [if_neg hemp]
      have hne : r ≠ σ.length := Nat.ne_of_lt hr
      cases sp with
      | some s =>
        cases hs : s.isEmpty with
        | true =>
          simp only [hs, if_true]
          show cell_get (py_list_append (σ ++ [_]) σ.length _) r = cell_get σ r
          unfold py_list_append
          rw [cell_get_set_ne _ _ _ _ hne, cell_get_append σ _ r hr]
        | false =>
          simp only [hs, Bool.false_eq_true, if_false]
          show cell_get (py_list_append
            (py_list_insert0 (σ ++ [_]) σ.length _) σ.length _) r = cell_get σ r
          unfold py_list_append py_list_insert0
          rw [cell_get_set_ne _ _ _ _ hne, cell_get_set_ne _ _ _ _ hne,
            cell_get_append σ _ r hr]
      | none =>
        show cell_get (py_list_append (σ ++ [_]) σ.length _) r = cell_get σ r
        unfold py_list_append
        rw [cell_get_set_ne _ _ _ _ hne, cell_get_append σ _ r hr]

/-- C10 witness: a singleton store holding a one-message history. -/
theorem c10_format_prompt_no_mutation_witness :
    cell_get (format_prompt_ref [[Message.mk "user" "a"]] "q" (some "s")
      (some 0)).1 0 = cell_get [[Message.mk "user" "a"]] 0 :=
  c10_format_prompt_no_mutation [[Message.mk "user" "a"]] "q" (some "s")
    (some 0) 0 (by decide)
